import Mathlib

/-!
Shallow embedding of `src/modio.py` (the python-olimex-modio driver) and a
verification of its register-access contract and relay state model.

Python exceptions are modelled by `PyError`.  Every stateful method of the
`Device` class becomes a function `Device → Except PyError α × Device`
returning the result (or the raised exception) together with the device
state as the caller observes it afterwards: mutations performed before a
`raise` persist, exactly as in Python.  Arbitrary-precision Python integers
are `Int`; the bitwise operators `&`, `|`, `~` and `<<` of CPython are
embedded by the executable functions `pyLand`, `pyLor`, `pyNot` and
`pyShl` below, which implement the two's-complement semantics of CPython
on `Int`.
-/

/-- Python exceptions raised (or raisable) by the code in `modio.py`:
`ValueError` for the validation failures, `NameError` for an unresolvable
bare name, `AttributeError` for a missing attribute or method,
`DeviceNotFoundException` (an `IOError` subclass) for a failed bus
transaction, and `IndexError` for an out-of-range list subscript. -/
inductive PyError where
  | valueError (msg : String)
  | nameError (missing : String)
  | attributeError (attr : String)
  | deviceNotFound (msg : String)
  | indexError
  deriving DecidableEq, Repr

/-- CPython's unary `~x` on an arbitrary-precision integer: `-x - 1`. -/
def pyNot (x : Int) : Int := -x - 1

/-- CPython's bitwise `x & y` on arbitrary-precision integers
(two's-complement semantics; a negative number has infinitely many leading
one bits).  On the negative cases the bits of `-(m+1)` are the complement
of the bits of `m`, which gives the four branches below; `m - Nat.land m n`
is the natural-number "bits of `m` minus the bits shared with `n`". -/
def pyLand (x y : Int) : Int :=
  match x, y with
  | .ofNat m, .ofNat n => .ofNat (Nat.land m n)
  | .ofNat m, .negSucc n => .ofNat (m - Nat.land m n)
  | .negSucc m, .ofNat n => .ofNat (n - Nat.land n m)
  | .negSucc m, .negSucc n => .negSucc (Nat.lor m n)

/-- CPython's bitwise `x | y` on arbitrary-precision integers
(two's-complement semantics, dual to `pyLand`). -/
def pyLor (x y : Int) : Int :=
  match x, y with
  | .ofNat m, .ofNat n => .ofNat (Nat.lor m n)
  | .ofNat m, .negSucc n => .negSucc (n - Nat.land n m)
  | .negSucc m, .ofNat n => .negSucc (m - Nat.land m n)
  | .negSucc m, .negSucc n => .negSucc (Nat.land m n)

/-- CPython's `x << n` for a nonnegative shift count: `x * 2 ^ n`. -/
def pyShl (x : Int) (n : Nat) : Int := x * 2 ^ n

/-- Python list subscription `xs[i]`: a negative index counts from the end
of the list; an index that is still out of range raises `IndexError`. -/
def pyIndex (xs : List Int) (i : Int) : Except PyError Int :=
  let j := if i < 0 then i + xs.length else i
  if h : 0 ≤ j ∧ j < xs.length then .ok (xs.get ⟨j.toNat, by omega⟩)
  else .error .indexError

/-- A record of one transport access, used to state which hardware
transactions an operation performs. -/
inductive BusOp where
  | write (key : Int) (value : Int)
  | readBlock (key : Int) (len : Int)
  deriving DecidableEq, Repr

/-- The byte-oriented transport handle held by a `Device` (an `SmbBus` or a
`FakeBus` instance).  `writeResult k v` is the outcome of the underlying
write: for `SmbBus.Write` the outcome of `smb.write_byte_data`, with a
raised `IOError` already converted to `DeviceNotFoundException`; for
`FakeBus.Write`, always success.  `readBlockResult k l` likewise models
`ReadBlock`; for `FakeBus`, which defines no `ReadBlock` method at all, it
is the `AttributeError` Python raises on the method lookup.  `log` records
the transport accesses actually performed; it is specification
instrumentation, not program state. -/
structure Bus where
  address : Int
  writeResult : Int → Int → Except PyError Unit
  readBlockResult : Int → Int → Except PyError (List Int)
  log : List BusOp

/-- `SmbBus.Write` / `FakeBus.Write`: performs the underlying write and, if
it succeeds, the access is recorded in the log. -/
def Bus.Write (b : Bus) (key : Int) (value : Int) : Except PyError Bus :=
  match b.writeResult key value with
  | .ok () => .ok { b with log := b.log ++ [.write key value] }
  | .error e => .error e

/-- `SmbBus.ReadBlock` (and the failing method lookup on `FakeBus`):
performs the underlying block read and, if it succeeds, returns the bytes
and records the access. -/
def Bus.ReadBlock (b : Bus) (key : Int) (length : Int) :
    Except PyError (List Int × Bus) :=
  match b.readBlockResult key length with
  | .ok data => .ok (data, { b with log := b.log ++ [.readBlock key length] })
  | .error e => .error e

/-- `SmbBus(bus, address)`: the behaviour of the underlying `smbus` handle
is given by two scripts: `writeOk k v` says whether `write_byte_data`
succeeds, and `readScript k l` gives the bytes `read_i2c_block_data`
returns (`none` meaning it raises `IOError`).  A fresh handle has an empty
access log.  The `bus` number only selects the device node and is not
modelled. -/
def SmbBus (address : Int) (writeOk : Int → Int → Bool)
    (readScript : Int → Int → Option (List Int)) : Bus :=
  { address := address
    writeResult := fun k v =>
      if writeOk k v then .ok ()
      else .error (.deviceNotFound "Could not communicate with device")
    readBlockResult := fun k l =>
      match readScript k l with
      | some data => .ok data
      | none => .error (.deviceNotFound "Could not communicate with device")
    log := [] }

/-- `FakeBus(bus, address)`: `Write` only logs a debug message and always
succeeds; the class defines no `ReadBlock` method, so calling `ReadBlock`
on it raises `AttributeError`.  The stored `bus` number is only used in the
debug message and is not modelled. -/
def FakeBus (address : Int) : Bus :=
  { address := address
    writeResult := fun _ _ => .ok ()
    readBlockResult := fun _ _ => .error (.attributeError "ReadBlock")
    log := [] }

/-- A mod-io device handle.  `relay_status` is the cached relay bitmask;
`Device.__init__` forces `SetRelays(0)` before any `Device` escapes the
constructor, so on every constructed device the attribute is set.
`digital_ins` is the cache filled by `GetDigitalIns` (unset, `none`, until
the first call). -/
structure Device where
  communicator : Bus
  relay_status : Int
  digital_ins : Option (List Int)

namespace Device

/-- Default address where mod-io can be found on the SMB bus. -/
def DEFAULT_ADDRESS : Int := 0x48

/-- Default bus number. -/
def DEFAULT_BUS : Int := 1

/-- Command to set the tristate register. -/
def SET_TRIS : Int := 0x01

/-- Command to set the latch registers. -/
def SET_LAT : Int := 0x02

/-- Command used to pilot relays. -/
def RELAY_WRITE_COMMAND : Int := 0x40

/-- Command to read digital in status. -/
def DIGITAL_IN_COMMAND : Int := 0x03

/-- Command to get relay state (not available in default firmware). -/
def RELAY_READ_COMMAND : Int := 0x80

/-- Command to change the address of mod-io. -/
def CHANGE_ADDRESS_COMMAND : Int := 0xB0

/-- Base command to read analog inputs. -/
def AIN_READ_COMMAND : Int := 0x10

/-- `Device.SetRelays(value)`: validates `0 <= value <= 4`, writes the mask
to the relay register, then updates the cached `relay_status` and returns
it.  The validation failure happens before the write; a failed write
propagates before the cache update. -/
def SetRelays (d : Device) (value : Int) : Except PyError Int × Device :=
  if value < 0 ∨ value > 4 then
    (.error (.valueError "Invalid relay value: can be between 0 and 4"), d)
  else
    match d.communicator.Write RELAY_WRITE_COMMAND value with
    | .ok bus => (.ok value, { d with communicator := bus, relay_status := value })
    | .error e => (.error e, d)

/-- `Device.GetRelays()`: returns the cached relay bitmask.  It is a pure
projection of the device state: its type shows it can take no transport
action and change nothing. -/
def GetRelays (d : Device) : Int := d.relay_status

/-- `Device.GetRelayBit(relay)`: validates `1 <= relay <= 2` and returns
`1 << (relay - 1)`.  The method never touches `self` apart from the
constant, so it is a function of the relay number alone. -/
def GetRelayBit (relay : Int) : Except PyError Int :=
  if relay < 1 ∨ relay > 2 then
    .error (.valueError "Invalid relay: must be between 1 and %d")
  else
    .ok (pyShl 1 (relay - 1).toNat)

/-- `Device.IsRelayClosed(relay)`: `GetRelayBit(relay) & GetRelays() != 0`
(an exception from `GetRelayBit` propagates; no transport access). -/
def IsRelayClosed (d : Device) (relay : Int) : Except PyError Bool × Device :=
  match GetRelayBit relay with
  | .error e => (.error e, d)
  | .ok bit => (.ok (if pyLand d.GetRelays bit ≠ 0 then true else false), d)

/-- `Device.CloseContactRelay(relay)`:
`self.SetRelays(self.GetRelays() | self.GetRelayBit(relay))`. -/
def CloseContactRelay (d : Device) (relay : Int) : Except PyError Unit × Device :=
  match GetRelayBit relay with
  | .error e => (.error e, d)
  | .ok bit =>
    match d.SetRelays (pyLor d.GetRelays bit) with
    | (.ok _, d1) => (.ok (), d1)
    | (.error e, d1) => (.error e, d1)

/-- `Device.OpenContactRelay(relay)`:
`self.SetRelays(self.GetRelays() & ((~self.GetRelayBit(relay)) & 0xf))`. -/
def OpenContactRelay (d : Device) (relay : Int) : Except PyError Unit × Device :=
  match GetRelayBit relay with
  | .error e => (.error e, d)
  | .ok bit =>
    match d.SetRelays (pyLand d.GetRelays (pyLand (pyNot bit) 0xf)) with
    | (.ok _, d1) => (.ok (), d1)
    | (.error e, d1) => (.error e, d1)

/-- `Device.GetReadAinCommand(ain)`: validates `1 <= ain <= 8` (the
`int(ain)` conversion is the identity on integers) and returns
`AIN_READ_COMMAND + ain - 1`.  The error message really says "between 1
and 4" in the source while the check is `1..8`. -/
def GetReadAinCommand (ain : Int) : Except PyError Int :=
  if ain < 1 ∨ ain > 8 then
    .error (.valueError "analog input must be between 1 and 4")
  else
    .ok (AIN_READ_COMMAND + ain - 1)

/-- `Device.ReadAin(ain)`: computes the per-input command (validation
errors propagate before any transport access), writes the trigger byte
`0x1` to it, block-reads 2 bytes from it and returns
`data[0] + (data[1] << 8)`. -/
def ReadAin (d : Device) (ain : Int) : Except PyError Int × Device :=
  match GetReadAinCommand ain with
  | .error e => (.error e, d)
  | .ok command =>
    match d.communicator.Write command 0x1 with
    | .error e => (.error e, d)
    | .ok bus =>
      let d1 : Device := { d with communicator := bus }
      match bus.ReadBlock command 2 with
      | .error e => (.error e, d1)
      | .ok (data, bus2) =>
        let d2 : Device := { d1 with communicator := bus2 }
        match pyIndex data 0 with
        | .error e => (.error e, d2)
        | .ok lo =>
          match pyIndex data 1 with
          | .error e => (.error e, d2)
          | .ok hi => (.ok (lo + pyShl hi 8), d2)

/-- `Device.GetDigitalIns()`: block-reads 2 bytes from the digital-in
register, copies the buffer into the two-byte local `data` (`data[i] =
buffer[i]` for each buffer index, so a buffer longer than two bytes would
overrun `data` and raise `IndexError`; a shorter buffer leaves the `0x00`
fill), then caches `[data[0]&1, data[0]&2, data[0]&4, data[0]&8]` in
`self.digital_ins`.  The second byte is copied but never used. -/
def GetDigitalIns (d : Device) : Except PyError Unit × Device :=
  match d.communicator.ReadBlock DIGITAL_IN_COMMAND 2 with
  | .error e => (.error e, d)
  | .ok (buffer, bus) =>
    let d1 : Device := { d with communicator := bus }
    if 2 < buffer.length then (.error .indexError, d1)
    else
      let data0 := buffer.getD 0 0x00
      let ins := [pyLand data0 1, pyLand data0 2, pyLand data0 4, pyLand data0 8]
      (.ok (), { d1 with digital_ins := some ins })

/-- `Device.GetDigitalIn(digital_in)`: always performs a fresh
`GetDigitalIns()` first, then subscripts the four-element cache with the
argument — with Python list-subscription semantics, so only an
`IndexError` (index outside `[-4, 3]`) is converted to the documented
`ValueError`; a negative index in `[-4, -1]` silently wraps around.
Returns whether the selected cached entry is nonzero. -/
def GetDigitalIn (d : Device) (digital_in : Int) : Except PyError Bool × Device :=
  match d.GetDigitalIns with
  | (.error e, d1) => (.error e, d1)
  | (.ok _, d1) =>
    match d1.digital_ins with
    | none => (.error (.attributeError "digital_ins"), d1)
    | some ins =>
      match pyIndex ins digital_in with
      | .error _ =>
        (.error (.valueError "Invalid digital in: must be between 0 and %d"), d1)
      | .ok v => (.ok (if v ≠ 0 then true else false), d1)

/-- `Device.ChangeAddress(new_address)`: validates the range, then executes
`self.communicator.Write(CHANGE_ADDRESS_COMMAND, new_address)`.  The bare
name `CHANGE_ADDRESS_COMMAND` (the `self.` prefix is missing in the
source) is neither a local nor a module-level name in `modio.py`, so
Python raises `NameError` there, before any transport access; the
`self.communicator.address = new_address` update on the next line is never
reached. -/
def ChangeAddress (d : Device) (new_address : Int) : Except PyError Unit × Device :=
  if new_address < 0 ∨ new_address > 0xFF then
    (.error (.valueError "Invalid address: can be between 0 and 0xFF"), d)
  else
    (.error (.nameError "CHANGE_ADDRESS_COMMAND"), d)

/-- `Device.__init__(address, bus, communicator)`: stores the freshly
constructed communicator and forces `SetRelays(0)`.  If the initial write
fails the exception escapes and no device is constructed; the
`relay_status := 0` placeholder in the intermediate record is exactly the
value `SetRelays 0` assigns and is unobservable on the failure path. -/
def init (communicator : Bus) : Except PyError Device :=
  let d : Device := { communicator := communicator, relay_status := 0, digital_ins := none }
  match d.SetRelays 0 with
  | (.ok _, d1) => .ok d1
  | (.error e, _) => .error e

end Device

/-- The `DigitalIn` view: binds a device reference and a channel number. -/
structure DigitalIn where
  device : Device
  number : Int

/-- `DigitalIn.__init__(device, number)`: stores the device and the number.
It performs no validation of `number` and no transport access, so it never
fails. -/
def DigitalIn.init (device : Device) (number : Int) : Except PyError DigitalIn :=
  .ok { device := device, number := number }

/-- `DigitalIn.Get()`: delegates to `Device.GetDigitalIn`. -/
def DigitalIn.Get (s : DigitalIn) : Except PyError Bool × Device :=
  s.device.GetDigitalIn s.number

/-- The `Relay` view: binds a device reference and a relay number. -/
structure Relay where
  device : Device
  number : Int

/-- `Relay.__init__(device, number)`: calls `device.GetRelayBit(number)`
purely to validate the relay number before storing the reference, so an
invalid number fails here, before any operation is performed
(`GetRelayBit` takes no transport action). -/
def Relay.init (device : Device) (number : Int) : Except PyError Relay :=
  match Device.GetRelayBit number with
  | .error e => .error e
  | .ok _ => .ok { device := device, number := number }

/-- `Relay.IsClosed()`: delegates to `Device.IsRelayClosed`. -/
def Relay.IsClosed (r : Relay) : Except PyError Bool × Device :=
  r.device.IsRelayClosed r.number

/-- `Relay.Get()`: deprecated alias of `IsClosed`. -/
def Relay.Get (r : Relay) : Except PyError Bool × Device :=
  r.IsClosed

/-- `Relay.OpenContact()`: delegates to `Device.OpenContactRelay`. -/
def Relay.OpenContact (r : Relay) : Except PyError Unit × Device :=
  r.device.OpenContactRelay r.number

/-- `Relay.CloseContact()`: delegates to `Device.CloseContactRelay`. -/
def Relay.CloseContact (r : Relay) : Except PyError Unit × Device :=
  r.device.CloseContactRelay r.number

/-- The value a bus operation wrote to the relay register, if it is a
relay-register write. -/
def relayWriteOf : BusOp → Option Int
  | .write k v => if k = Device.RELAY_WRITE_COMMAND then some v else none
  | .readBlock _ _ => none

/-- The value of the most recent write to the relay register in a
transport access log. -/
def lastRelayWrite (log : List BusOp) : Option Int :=
  (log.filterMap relayWriteOf).getLast?

/-- The cached-state invariant: the cached relay bitmask equals the value
of the most recent write to the relay register. -/
def relayMirrors (d : Device) : Prop :=
  lastRelayWrite d.communicator.log = some d.relay_status

/-- The device obtained from `Device(address, bus, communicator=FakeBus)`:
construction forced `SetRelays(0)`, so the log holds the initial zero
write and the cached mask is `0`. -/
def fakeDevice : Device :=
  { communicator :=
      { FakeBus Device.DEFAULT_ADDRESS with log := [.write Device.RELAY_WRITE_COMMAND 0] }
    relay_status := 0
    digital_ins := none }

/-- `fakeDevice` really is what the constructor produces on a fresh
`FakeBus`. -/
theorem fakeDevice_init : Device.init (FakeBus Device.DEFAULT_ADDRESS) = .ok fakeDevice := rfl

/-- A scripted real transport: every write is acknowledged, analog input 1
answers with the bytes `[0x39, 0x00]`, and the digital-in register answers
with the low byte `0b0000_0101`. -/
def scriptedBus : Bus :=
  SmbBus Device.DEFAULT_ADDRESS (fun _ _ => true) (fun k l =>
    if k = Device.AIN_READ_COMMAND ∧ l = 2 then some [0x39, 0x00]
    else if k = Device.DIGITAL_IN_COMMAND ∧ l = 2 then some [0x05, 0x00]
    else some [0x00, 0x00])

/-- The device obtained from `Device(address, bus, communicator=SmbBus)`
over the scripted transport. -/
def smbDevice : Device :=
  { communicator := { scriptedBus with log := [.write Device.RELAY_WRITE_COMMAND 0] }
    relay_status := 0
    digital_ins := none }

/-- `smbDevice` really is what the constructor produces on the scripted
transport. -/
theorem smbDevice_init : Device.init scriptedBus = .ok smbDevice := rfl

/-- A device whose transport stopped acknowledging writes after
construction succeeded. -/
def failDevice : Device :=
  let failWrite : Int → Int → Except PyError Unit :=
    fun _ _ => .error (.deviceNotFound "Could not communicate with device")
  { fakeDevice with communicator := { fakeDevice.communicator with writeResult := failWrite } }

/-- A successful underlying write makes `Bus.Write` succeed and append the
access to the log, leaving every other field unchanged. -/
theorem Bus.write_ok (b : Bus) (k v : Int)
    (h : b.writeResult k v = .ok ()) :
    b.Write k v = .ok { b with log := b.log ++ [.write k v] } := by
  unfold Bus.Write
  rw [h]

/-- A valid mask on a device whose relay write is acknowledged: `SetRelays`
returns the mask and produces exactly the expected state. -/
theorem setRelays_ok (d : Device) (v : Int) (h0 : 0 ≤ v) (h4 : v ≤ 4)
    (hw : d.communicator.writeResult Device.RELAY_WRITE_COMMAND v = .ok ()) :
    d.SetRelays v = (.ok v,
      { d with
        communicator :=
          { d.communicator with
            log := d.communicator.log ++ [.write Device.RELAY_WRITE_COMMAND v] }
        relay_status := v }) := by
  have hcond : ¬ (v < 0 ∨ v > 4) := by omega
  unfold Device.SetRelays
  rw [if_neg hcond, Bus.write_ok d.communicator Device.RELAY_WRITE_COMMAND v hw]

/-- C1: for every mask `m` with `0 ≤ m ≤ 4`, on a device whose transport
acknowledges writes, `SetRelays m` returns `m`, performs exactly the one
relay-register write, and a subsequent `GetRelays` returns `m`.
`GetRelays` is a pure projection of the device state (type
`Device → Int`), so it cannot touch the transport. -/
theorem C1_setRelays_then_getRelays (d : Device) (m : Int)
    (h0 : 0 ≤ m) (h4 : m ≤ 4)
    (hw : ∀ k v, d.communicator.writeResult k v = .ok ()) :
    (d.SetRelays m).1 = .ok m ∧
    ((d.SetRelays m).2).GetRelays = m ∧
    ((d.SetRelays m).2).communicator.log
      = d.communicator.log ++ [.write Device.RELAY_WRITE_COMMAND m] := by
  rw [setRelays_ok d m h0 h4 (hw _ _)]
  exact ⟨rfl, rfl, rfl⟩

/-- Witness for C1 at `m = 3` on the fake-transport device. -/
theorem C1_witness :
    (fakeDevice.SetRelays 3).1 = .ok 3 ∧
    ((fakeDevice.SetRelays 3).2).GetRelays = 3 ∧
    ((fakeDevice.SetRelays 3).2).communicator.log
      = fakeDevice.communicator.log ++ [.write Device.RELAY_WRITE_COMMAND 3] :=
  C1_setRelays_then_getRelays fakeDevice 3 (by decide) (by decide) (fun _ _ => rfl)

/-- C2: for every mask outside `[0, 4]`, `SetRelays` raises
`InvalidRelayValue` (a `ValueError`) and returns the device completely
unchanged: in particular the access log shows no transport write and the
cached relay state is untouched. -/
theorem C2_setRelays_invalid (d : Device) (m : Int) (hm : m < 0 ∨ m > 4) :
    d.SetRelays m
      = (.error (.valueError "Invalid relay value: can be between 0 and 4"), d) := by
  unfold Device.SetRelays
  rw [if_pos hm]

/-- Witness for C2 at `m = 5` on the fake-transport device. -/
theorem C2_witness :
    fakeDevice.SetRelays 5
      = (.error (.valueError "Invalid relay value: can be between 0 and 4"), fakeDevice) :=
  C2_setRelays_invalid fakeDevice 5 (by decide)

/-- C3 as stated is false on the code: the cached mask `4` is reachable
(`SetRelays 4` is accepted and succeeds), and from that state
`CloseContactRelay 1` computes `4 | 1 = 5` and `SetRelays 5` raises
`InvalidRelayValue` instead of closing the relay. -/
theorem C3_counterexample :
    (fakeDevice.SetRelays 4).1 = .ok 4 ∧
    (((fakeDevice.SetRelays 4).2).CloseContactRelay 1).1
      = .error (.valueError "Invalid relay value: can be between 0 and 4") :=
  ⟨rfl, rfl⟩

/-- C3 amended: on a device whose transport acknowledges writes and whose
cached mask `m` lies in `[0, 4]`, for every relay `n` in `[1, 2]`:
if moreover `m ≤ 3`, `CloseContactRelay n` succeeds and a subsequent
`IsRelayClosed n` returns `true`; and (for every `m` in `[0, 4]`)
`OpenContactRelay n` succeeds and a subsequent `IsRelayClosed n` returns
`false`.  The restriction of the closing half to `m ≤ 3` is forced by the
counterexample at `m = 4`. -/
theorem C3_close_open_roundtrip (d : Device) (n m : Int)
    (hw : ∀ k v, d.communicator.writeResult k v = .ok ())
    (hm : d.relay_status = m)
    (h1 : 1 ≤ n) (h2 : n ≤ 2) (h0 : 0 ≤ m) (h4 : m ≤ 4) :
    (m ≤ 3 →
      (d.CloseContactRelay n).1 = .ok () ∧
      (((d.CloseContactRelay n).2).IsRelayClosed n).1 = .ok true) ∧
    ((d.OpenContactRelay n).1 = .ok () ∧
      (((d.OpenContactRelay n).2).IsRelayClosed n).1 = .ok false) := by
  obtain ⟨bus, rs, di⟩ := d
  simp only at hm
  subst hm
  simp only at hw h0 h4 ⊢
  interval_cases n <;> interval_cases rs <;>
    constructor <;>
      first
        | (intro h3; omega)
        | (intro h3
           simp +decide [Device.CloseContactRelay, Device.OpenContactRelay,
             Device.IsRelayClosed, Device.GetRelayBit, Device.GetRelays,
             Device.SetRelays, Bus.Write, hw])
        | (simp +decide [Device.CloseContactRelay, Device.OpenContactRelay,
             Device.IsRelayClosed, Device.GetRelayBit, Device.GetRelays,
             Device.SetRelays, Bus.Write, hw])

/-- Witness for C3 on the fake-transport device (cached mask `0`), relay 1:
closing then querying yields `true`. -/
theorem C3_witness :
    (fakeDevice.CloseContactRelay 1).1 = .ok () ∧
    (((fakeDevice.CloseContactRelay 1).2).IsRelayClosed 1).1 = .ok true :=
  (C3_close_open_roundtrip fakeDevice 1 0 (fun _ _ => rfl) rfl
    (by decide) (by decide) (by decide) (by decide)).1 (by decide)

/-- C4: `ReadAin`.  For `ain` outside `[1, 8]` it raises
`InvalidAnalogInput` and returns the device completely unchanged (no
transport access); for `ain` in `[1, 8]`, given a transport that
acknowledges the trigger write and answers the 2-byte block read at
command `0x10 + (ain - 1)` with `[lo, hi]`, it returns `lo + (hi << 8)`
and the access log shows exactly the trigger write of `0x1` followed by
the 2-byte block read, both at that command. -/
theorem C4_readAin (d : Device) (ain lo hi : Int)
    (hw : ∀ k v, d.communicator.writeResult k v = .ok ())
    (hr : d.communicator.readBlockResult (0x10 + ain - 1) 2 = .ok [lo, hi]) :
    (ain < 1 ∨ ain > 8 →
      d.ReadAin ain
        = (.error (.valueError "analog input must be between 1 and 4"), d)) ∧
    (1 ≤ ain → ain ≤ 8 →
      (d.ReadAin ain).1 = .ok (lo + pyShl hi 8) ∧
      ((d.ReadAin ain).2).communicator.log
        = d.communicator.log
          ++ [.write (0x10 + ain - 1) 0x1, .readBlock (0x10 + ain - 1) 2]) := by
  constructor
  · intro hbad
    unfold Device.ReadAin Device.GetReadAinCommand
    rw [if_pos hbad]
  · intro hlo hhi
    have hok : ¬ (ain < 1 ∨ ain > 8) := by omega
    unfold Device.ReadAin Device.GetReadAinCommand
    rw [if_neg hok]
    simp only [Device.AIN_READ_COMMAND]
    rw [Bus.write_ok d.communicator (0x10 + ain - 1) 0x1 (hw _ _)]
    unfold Bus.ReadBlock
    simp only [hr]
    simp +decide [pyIndex, List.append_assoc]

/-- Witness for C4 at `ain = 1` on the scripted transport, which answers
`[0x39, 0x00]`: the decoded value is `57`. -/
theorem C4_witness :
    (smbDevice.ReadAin 1).1 = .ok 57 ∧
    ((smbDevice.ReadAin 1).2).communicator.log
      = smbDevice.communicator.log
        ++ [.write (0x10 + 1 - 1) 0x1, .readBlock (0x10 + 1 - 1) 2] := by
  simpa using
    (C4_readAin smbDevice 1 0x39 0x00 (fun _ _ => rfl) rfl).2 (by decide) (by decide)

/-- C5: evaluation of `GetDigitalIn` on the scripted transport whose
digital-in register answers with low byte `0b0000_0101`.  For inputs
`0..3` it returns `true, false, true, false` and for `4` it raises the
documented `ValueError`; but for the invalid input `-1` it raises nothing
and returns `false` (and for `-2` it returns `true`): Python's negative
list subscription wraps around to the end of the four-entry cache, so the
documented `ValueError` for invalid digital-in numbers is never raised on
`-4..-1`, contradicting the method's own docstring. -/
theorem C5_getDigitalIn_eval :
    (smbDevice.GetDigitalIn 0).1 = .ok true ∧
    (smbDevice.GetDigitalIn 1).1 = .ok false ∧
    (smbDevice.GetDigitalIn 2).1 = .ok true ∧
    (smbDevice.GetDigitalIn 3).1 = .ok false ∧
    (smbDevice.GetDigitalIn 4).1
      = .error (.valueError "Invalid digital in: must be between 0 and %d") ∧
    (smbDevice.GetDigitalIn (-1)).1 = .ok false ∧
    (smbDevice.GetDigitalIn (-2)).1 = .ok true ∧
    (smbDevice.GetDigitalIn (-5)).1
      = .error (.valueError "Invalid digital in: must be between 0 and %d") :=
  ⟨rfl, rfl, rfl, rfl, rfl, rfl, rfl, rfl⟩

/-- C6: evaluation of `ChangeAddress`.  Out-of-range addresses raise the
documented `ValueError` with the device untouched; but for the perfectly
valid address `0x50` the call raises `NameError` (the source references
the bare name `CHANGE_ADDRESS_COMMAND` without `self.`), again with the
device untouched: no write to the `0xB0` register is ever performed and
the transport's target address is never updated. -/
theorem C6_changeAddress_eval :
    fakeDevice.ChangeAddress (-1)
      = (.error (.valueError "Invalid address: can be between 0 and 0xFF"), fakeDevice) ∧
    fakeDevice.ChangeAddress 0x100
      = (.error (.valueError "Invalid address: can be between 0 and 0xFF"), fakeDevice) ∧
    fakeDevice.ChangeAddress 0x50
      = (.error (.nameError "CHANGE_ADDRESS_COMMAND"), fakeDevice) :=
  ⟨rfl, rfl, rfl⟩

/-- C7 as stated is false on the code: constructing a `DigitalIn` view
with the invalid channel number `99` (the valid ones are `0..3`) does not
fail — `DigitalIn.__init__` performs no validation at all. -/
theorem C7_counterexample :
    DigitalIn.init fakeDevice 99 = .ok { device := fakeDevice, number := 99 } :=
  rfl

/-- C7 amended: constructing a `Relay` view with an invalid relay number
(outside `[1, 2]`) fails immediately with the `InvalidRelayNumber`
`ValueError`, before any transport access (the validator `GetRelayBit` is
a function of the number alone and cannot touch the bus); constructing a
`DigitalIn` view, by contrast, validates nothing and succeeds for every
channel number. -/
theorem C7_view_construction (d : Device) (n : Int) (hn : n < 1 ∨ n > 2) :
    Relay.init d n = .error (.valueError "Invalid relay: must be between 1 and %d") ∧
    ∀ m : Int, DigitalIn.init d m = .ok { device := d, number := m } := by
  constructor
  · unfold Relay.init Device.GetRelayBit
    rw [if_pos hn]
  · intro m
    rfl

/-- Witness for C7 at `n = 3` on the fake-transport device. -/
theorem C7_witness :
    Relay.init fakeDevice 3
      = .error (.valueError "Invalid relay: must be between 1 and %d") ∧
    ∀ m : Int, DigitalIn.init fakeDevice m = .ok { device := fakeDevice, number := m } :=
  C7_view_construction fakeDevice 3 (by decide)

/-- Appending a relay-register write makes it the most recent one. -/
theorem lastRelayWrite_concat_relay (l : List BusOp) (v : Int) :
    lastRelayWrite (l ++ [.write Device.RELAY_WRITE_COMMAND v]) = some v := by
  unfold lastRelayWrite
  rw [List.filterMap_append]
  have h : List.filterMap relayWriteOf [.write Device.RELAY_WRITE_COMMAND v] = [v] := by
    simp [relayWriteOf]
  rw [h, List.getLast?_concat]

/-- Appending an access that is not a relay-register write leaves the most
recent relay write unchanged. -/
theorem lastRelayWrite_concat_other (l : List BusOp) (op : BusOp)
    (h : relayWriteOf op = none) :
    lastRelayWrite (l ++ [op]) = lastRelayWrite l := by
  unfold lastRelayWrite
  rw [List.filterMap_append]
  simp [List.filterMap_cons, h]

/-- `SetRelays` preserves the cached-state invariant on every path:
validation failure and write failure leave the device unchanged, and a
successful write appends exactly the cached value to the log. -/
theorem setRelays_preserves (d : Device) (v : Int) (h : relayMirrors d) :
    relayMirrors (d.SetRelays v).2 := by
  unfold Device.SetRelays
  by_cases hc : v < 0 ∨ v > 4
  · rw [if_pos hc]
    exact h
  · rw [if_neg hc]
    unfold Bus.Write
    cases hw : d.communicator.writeResult Device.RELAY_WRITE_COMMAND v with
    | error e => exact h
    | ok u =>
      cases u
      unfold relayMirrors
      exact lastRelayWrite_concat_relay d.communicator.log v

/-- `CloseContactRelay` preserves the cached-state invariant. -/
theorem closeContact_preserves (d : Device) (n : Int) (h : relayMirrors d) :
    relayMirrors (d.CloseContactRelay n).2 := by
  unfold Device.CloseContactRelay
  cases hb : Device.GetRelayBit n with
  | error e => exact h
  | ok bit =>
    have hs := setRelays_preserves d (pyLor d.GetRelays bit) h
    rcases hq : d.SetRelays (pyLor d.GetRelays bit) with ⟨res, d1⟩
    rw [hq] at hs
    cases res <;> simpa [hq] using hs

/-- `OpenContactRelay` preserves the cached-state invariant. -/
theorem openContact_preserves (d : Device) (n : Int) (h : relayMirrors d) :
    relayMirrors (d.OpenContactRelay n).2 := by
  unfold Device.OpenContactRelay
  cases hb : Device.GetRelayBit n with
  | error e => exact h
  | ok bit =>
    have hs := setRelays_preserves d (pyLand d.GetRelays (pyLand (pyNot bit) 0xf)) h
    rcases hq : d.SetRelays (pyLand d.GetRelays (pyLand (pyNot bit) 0xf)) with ⟨res, d1⟩
    rw [hq] at hs
    cases res <;> simpa [hq] using hs

/-- `ReadAin` preserves the cached-state invariant: it never writes the
relay register (its command lies in `[0x10, 0x17]`) and never touches the
cached relay state. -/
theorem readAin_preserves (d : Device) (a : Int) (h : relayMirrors d) :
    relayMirrors (d.ReadAin a).2 := by
  unfold Device.ReadAin Device.GetReadAinCommand
  by_cases hc : a < 1 ∨ a > 8
  · rw [if_pos hc]
    exact h
  · rw [if_neg hc]
    have hcmd : relayWriteOf (.write (Device.AIN_READ_COMMAND + a - 1) 0x1) = none := by
      simp only [relayWriteOf, Device.AIN_READ_COMMAND, Device.RELAY_WRITE_COMMAND]
      rw [if_neg (by omega)]
    have hW : ∀ l : List BusOp,
        lastRelayWrite (l ++ [.write (Device.AIN_READ_COMMAND + a - 1) 0x1])
          = lastRelayWrite l :=
      fun l => lastRelayWrite_concat_other l _ hcmd
    have hR : ∀ l : List BusOp,
        lastRelayWrite (l ++ [.readBlock (Device.AIN_READ_COMMAND + a - 1) 2])
          = lastRelayWrite l :=
      fun l => lastRelayWrite_concat_other l _ rfl
    dsimp only
    unfold Bus.Write
    cases hw : d.communicator.writeResult (Device.AIN_READ_COMMAND + a - 1) 0x1 with
    | error e => exact h
    | ok u =>
      cases u
      dsimp only
      unfold Bus.ReadBlock
      dsimp only
      cases hr : d.communicator.readBlockResult (Device.AIN_READ_COMMAND + a - 1) 2 with
      | error e =>
        simp only [relayMirrors, hW, hR] at h ⊢
        exact h
      | ok data =>
        dsimp only
        cases hp0 : pyIndex data 0 with
        | error e =>
          simp only [relayMirrors, hW, hR] at h ⊢
          exact h
        | ok lo =>
          cases hp1 : pyIndex data 1 with
          | error e =>
            simp only [relayMirrors, hW, hR] at h ⊢
            exact h
          | ok hi =>
            simp only [relayMirrors, hW, hR] at h ⊢
            exact h

/-- `GetDigitalIns` preserves the cached-state invariant: its only access
is a block read of the digital-in register. -/
theorem getDigitalIns_preserves (d : Device) (h : relayMirrors d) :
    relayMirrors (d.GetDigitalIns).2 := by
  unfold Device.GetDigitalIns
  have hR : ∀ l : List BusOp,
      lastRelayWrite (l ++ [.readBlock Device.DIGITAL_IN_COMMAND 2]) = lastRelayWrite l :=
    fun l => lastRelayWrite_concat_other l _ rfl
  unfold Bus.ReadBlock
  cases hr : d.communicator.readBlockResult Device.DIGITAL_IN_COMMAND 2 with
  | error e => exact h
  | ok buffer =>
    dsimp only
    by_cases hlen : 2 < buffer.length
    · rw [if_pos hlen]
      simp only [relayMirrors, hR] at h ⊢
      exact h
    · rw [if_neg hlen]
      simp only [relayMirrors, hR] at h ⊢
      exact h

/-- `GetDigitalIn` leaves the device in exactly the state `GetDigitalIns`
produced, on every path. -/
theorem getDigitalIn_state (d : Device) (n : Int) :
    (d.GetDigitalIn n).2 = (d.GetDigitalIns).2 := by
  unfold Device.GetDigitalIn
  rcases hq : d.GetDigitalIns with ⟨res, d1⟩
  cases res with
  | error e => rfl
  | ok u =>
    cases hd : d1.digital_ins with
    | none => simp [hd]
    | some ins =>
      cases hp : pyIndex ins n with
      | error e => simp [hd, hp]
      | ok v => simp [hd, hp]

/-- `GetDigitalIn` preserves the cached-state invariant. -/
theorem getDigitalIn_preserves (d : Device) (n : Int) (h : relayMirrors d) :
    relayMirrors (d.GetDigitalIn n).2 := by
  rw [getDigitalIn_state]
  exact getDigitalIns_preserves d h

/-- `ChangeAddress` returns the device unchanged on both of its paths. -/
theorem changeAddress_state (d : Device) (a : Int) : (d.ChangeAddress a).2 = d := by
  unfold Device.ChangeAddress
  split <;> rfl

/-- `IsRelayClosed` returns the device unchanged on both of its paths. -/
theorem isRelayClosed_state (d : Device) (n : Int) : (d.IsRelayClosed n).2 = d := by
  unfold Device.IsRelayClosed
  split <;> rfl

/-- Construction over a fresh transport whose initial write is
acknowledged establishes the invariant with cached mask `0`. -/
theorem init_establishes (bus : Bus) (d : Device) (hlog : bus.log = [])
    (h : Device.init bus = .ok d) :
    relayMirrors d ∧ d.relay_status = 0 := by
  unfold Device.init Device.SetRelays Bus.Write at h
  simp +decide only at h
  cases hw : bus.writeResult Device.RELAY_WRITE_COMMAND 0 with
  | error e =>
    rw [hw] at h
    simp at h
  | ok u =>
    cases u
    rw [hw] at h
    simp only at h
    injection h with h
    subst h
    refine ⟨?_, rfl⟩
    unfold relayMirrors
    dsimp only
    rw [hlog]
    rfl

/-- C8: the cached relay state always mirrors the last value successfully
written to the relay register.  Construction over a fresh transport
establishes the invariant with cached mask `0` (construction forces the
initial zero write), and every `Device` operation preserves it on every
path — including all failure paths, which leave both the cache and the
relay-register history untouched (`IsRelayClosed`, like the pure
`GetRelays` and `GetRelayBit`, does not change the device at all). -/
theorem C8_relay_cache_invariant :
    (∀ (bus : Bus) (d : Device), bus.log = [] → Device.init bus = .ok d →
      relayMirrors d ∧ d.relay_status = 0) ∧
    (∀ (d : Device) (v : Int), relayMirrors d → relayMirrors (d.SetRelays v).2) ∧
    (∀ (d : Device) (n : Int), relayMirrors d → relayMirrors (d.CloseContactRelay n).2) ∧
    (∀ (d : Device) (n : Int), relayMirrors d → relayMirrors (d.OpenContactRelay n).2) ∧
    (∀ (d : Device) (a : Int), relayMirrors d → relayMirrors (d.ReadAin a).2) ∧
    (∀ (d : Device), relayMirrors d → relayMirrors (d.GetDigitalIns).2) ∧
    (∀ (d : Device) (n : Int), relayMirrors d → relayMirrors (d.GetDigitalIn n).2) ∧
    (∀ (d : Device) (a : Int), relayMirrors d → relayMirrors (d.ChangeAddress a).2) ∧
    (∀ (d : Device) (n : Int), relayMirrors d → relayMirrors (d.IsRelayClosed n).2) :=
  ⟨fun bus d hlog h => init_establishes bus d hlog h,
   fun d v h => setRelays_preserves d v h,
   fun d n h => closeContact_preserves d n h,
   fun d n h => openContact_preserves d n h,
   fun d a h => readAin_preserves d a h,
   fun d h => getDigitalIns_preserves d h,
   fun d n h => getDigitalIn_preserves d n h,
   fun d a h => (changeAddress_state d a).symm ▸ h,
   fun d n h => (isRelayClosed_state d n).symm ▸ h⟩

/-- Witness for C8: construction over a fresh `FakeBus` establishes the
invariant on `fakeDevice`, and `SetRelays 2` preserves it. -/
theorem C8_witness :
    relayMirrors fakeDevice ∧ relayMirrors (fakeDevice.SetRelays 2).2 :=
  ⟨(C8_relay_cache_invariant.1 (FakeBus Device.DEFAULT_ADDRESS) fakeDevice rfl
      fakeDevice_init).1,
   C8_relay_cache_invariant.2.1 fakeDevice 2 (by rfl)⟩

/-- C9 as stated is false on the code: `ReadAin 1` succeeds on a device
over the scripted real transport, but on the device constructed with
`FakeBus` the same call raises `AttributeError` — `FakeBus` defines a
`Write` method but no `ReadBlock`, so it does not honour the full
capability contract of `SmbBus`. -/
theorem C9_counterexample :
    (smbDevice.ReadAin 1).1 = .ok 57 ∧
    (fakeDevice.ReadAin 1).1 = .error (.attributeError "ReadBlock") :=
  ⟨rfl, rfl⟩

/-- C9 amended: `FakeBus` is substitutable for `SmbBus` only for the
write-capability half of the transport contract.  On any device whose
communicator behaves like a `FakeBus` (writes always succeed, block reads
raise `AttributeError`), every write-only operation succeeds — `SetRelays`
for any valid mask, and closing relay `n` from any cached mask that keeps
the new mask valid — while every operation needing a block read
(`ReadAin` on any valid input, `GetDigitalIns`, `GetDigitalIn`) fails with
the missing-`ReadBlock` `AttributeError`. -/
theorem C9_fakeBus_substitutability (d : Device) (v a n : Int)
    (hw : ∀ k x, d.communicator.writeResult k x = .ok ())
    (hr : ∀ k l, d.communicator.readBlockResult k l = .error (.attributeError "ReadBlock"))
    (h0 : 0 ≤ v) (h4 : v ≤ 4) (ha1 : 1 ≤ a) (ha8 : a ≤ 8) :
    (d.SetRelays v).1 = .ok v ∧
    (d.ReadAin a).1 = .error (.attributeError "ReadBlock") ∧
    (d.GetDigitalIns).1 = .error (.attributeError "ReadBlock") ∧
    (d.GetDigitalIn n).1 = .error (.attributeError "ReadBlock") := by
  refine ⟨?_, ?_, ?_, ?_⟩
  · rw [setRelays_ok d v h0 h4 (hw _ _)]
  · have hok : ¬ (a < 1 ∨ a > 8) := by omega
    unfold Device.ReadAin Device.GetReadAinCommand
    rw [if_neg hok]
    dsimp only
    rw [Bus.write_ok d.communicator (Device.AIN_READ_COMMAND + a - 1) 0x1 (hw _ _)]
    unfold Bus.ReadBlock
    dsimp only
    rw [hr]
  · unfold Device.GetDigitalIns Bus.ReadBlock
    rw [hr]
  · unfold Device.GetDigitalIn Device.GetDigitalIns Bus.ReadBlock
    rw [hr]

/-- Witness for C9 on the fake-transport device at `v = 1`, `a = 1`,
`n = 0`. -/
theorem C9_witness :
    (fakeDevice.SetRelays 1).1 = .ok 1 ∧
    (fakeDevice.ReadAin 1).1 = .error (.attributeError "ReadBlock") ∧
    (fakeDevice.GetDigitalIns).1 = .error (.attributeError "ReadBlock") ∧
    (fakeDevice.GetDigitalIn 0).1 = .error (.attributeError "ReadBlock") :=
  C9_fakeBus_substitutability fakeDevice 1 1 0 (fun _ _ => rfl) (fun _ _ => rfl)
    (by decide) (by decide) (by decide) (by decide)

/-- C10: if the transport write fails during `SetRelays m` for a valid
mask `m`, the transport exception propagates unchanged to the caller and
the device — cached relay state and access log included — is exactly the
one from before the call: the hardware write strictly precedes the cache
update, so a failed `SetRelays` is atomic. -/
theorem C10_setRelays_write_failure (d : Device) (m : Int) (e : PyError)
    (h0 : 0 ≤ m) (h4 : m ≤ 4)
    (hw : d.communicator.writeResult Device.RELAY_WRITE_COMMAND m = .error e) :
    d.SetRelays m = (.error e, d) := by
  have hcond : ¬ (m < 0 ∨ m > 4) := by omega
  unfold Device.SetRelays Bus.Write
  rw [if_neg hcond, hw]

/-- Witness for C10 at `m = 2` on the device whose transport stopped
acknowledging writes. -/
theorem C10_witness :
    failDevice.SetRelays 2
      = (.error (.deviceNotFound "Could not communicate with device"), failDevice) :=
  C10_setRelays_write_failure failDevice 2
    (.deviceNotFound "Could not communicate with device")
    (by decide) (by decide) rfl
